import Mathlib

/-
Shallow embedding of the change-propagation core of gerrit-python-tools
(src/gerrit_python_tools/gerrit.py), covering:

  * the label voting model (`Approval`, `Label`, `Label.approved`,
    `Label.add_approval`, gerrit.py lines 226-316);
  * per-project label configuration (`get_labels_for_upstream`,
    gerrit.py lines 1474-1503);
  * the comment-added event gates (`CommentAdded.is_upstream_project`,
    `is_upstream_indicated`, `is_upstream_approved`, `get_approvals`,
    gerrit.py lines 319-546);
  * the propagation workflow `CommentAdded.send_upstream`
    (gerrit.py lines 582-725), modelled as a trace of external effects
    driven by explicit oracle inputs for the outcomes of the external
    commands (ssh query, git, git-review);
  * the raw-record field accessors of the classifier
    (gerrit.py lines 335-433), with Python exceptions made explicit in
    an `Except` result.

Python runtime behaviour that the source relies on is made explicit:
`dict[k]` raises `KeyError` while `dict.get(k)` returns `None`;
`int(None)` raises `TypeError`; `''.splitlines()` is the empty list and
indexing it raises `IndexError`; `if not username` treats both `None`
and the empty string as falsy; reading an unassigned local raises
`NameError`; `subprocess.check_output` failures carry the captured
output while `subprocess.check_call` failures carry `None` as output.
String values that the code converts with `int(...)` (label bounds,
approval values, patchset numbers) are modelled as already-parsed
integers; only their absence (`int(None)`, a `TypeError`) is modelled,
not non-numeric text.
-/

namespace Gerrit

/-- Python exception kinds that the modelled code can raise. -/
inductive PyExc
  | keyError
  | typeError
  | indexError
  | nameError
  | calledProcessError
  | osError
deriving DecidableEq, Repr

instance {ε α : Type} [DecidableEq ε] [DecidableEq α] : DecidableEq (Except ε α)
  | .ok a, .ok b => if h : a = b then .isTrue (by rw [h]) else .isFalse (by simp [h])
  | .ok _, .error _ => .isFalse (by simp)
  | .error _, .ok _ => .isFalse (by simp)
  | .error e, .error f => if h : e = f then .isTrue (by rw [h]) else .isFalse (by simp [h])

/-- Python `min` over a nonempty collection, given as head and tail. -/
def pyMin (v : Int) (vs : List Int) : Int := vs.foldl min v

/-- Python `max` over a nonempty collection, given as head and tail. -/
def pyMax (v : Int) (vs : List Int) : Int := vs.foldl max v

/-- Worker for `splitlines`: accumulates the current line (reversed) and
splits at a line feed, a carriage return, or a carriage-return/line-feed
pair, with no trailing empty line, matching Python `str.splitlines`
(exotic unicode terminators are not used by the repository and are
elided). -/
def splitGo : List Char → List Char → List (List Char)
  | [], acc => if acc.isEmpty then [] else [acc.reverse]
  | '\n' :: rest, acc => acc.reverse :: splitGo rest []
  | '\r' :: '\n' :: rest, acc => acc.reverse :: splitGo rest []
  | '\r' :: rest, acc => acc.reverse :: splitGo rest []
  | c :: rest, acc => splitGo rest (c :: acc)

/-- Python `str.splitlines`. -/
def splitlines (s : String) : List String :=
  (splitGo s.data []).map (fun cs => String.mk cs)

/-- Whether `small` is a leading run of `big`. -/
def leadsList : List Char → List Char → Bool
  | [], _ => true
  | _ :: _, [] => false
  | a :: as, b :: bs => a = b && leadsList as bs

/-- Python substring containment `needle in hay` over character lists. -/
def containsSub (needle : List Char) : List Char → Bool
  | [] => needle.isEmpty
  | c :: rest => leadsList needle (c :: rest) || containsSub needle rest

/-- Python `"%s" % x` for an optional string: `None` renders as `"None"`. -/
def pyShow : Option String → String
  | none => "None"
  | some s => s

/-- Approval value object (gerrit.py `Approval`, lines 226-259): the
`type` field of the raw approval dictionary (absent gives `None`) and
the integer vote value. -/
structure Approval where
  name : Option String
  value : Int
deriving DecidableEq, Repr

/-- Label accumulator (gerrit.py `Label`, lines 262-316): name, min and
max bounds from configuration, and the list of recorded vote values. -/
structure Label where
  name : String
  min : Int
  max : Int
  values : List Int
deriving DecidableEq, Repr

/-- Label.add_approval (gerrit.py lines 282-291): appends the approval's
value to the label's recorded values. -/
def Label.add_approval (l : Label) (a : Approval) : Label :=
  { l with values := l.values ++ [a.value] }

/-- Label.approved (gerrit.py lines 293-316): false on no values; false
when `min(values) <= self._min`; true when `max(values) >= self._max`;
false otherwise. -/
def Label.approved (l : Label) : Bool :=
  match l.values with
  | [] => false
  | v :: vs =>
    if pyMin v vs ≤ l.min then false
    else if l.max ≤ pyMax v vs then true
    else false

/-- One label entry of the configuration (`upstream-labels` items with
keys `name`, `min`, `max`; bounds already `int(...)`-parsed). -/
structure LabelCfg where
  name : String
  min : Int
  max : Int
deriving DecidableEq, Repr

/-- One project entry of the configuration: `name` (via `.get`, so
possibly absent), the `upstream` flag (`.get('upstream', False)`,
gerrit.py lines 1122-1131), and the optional `upstream-labels` list
(`.get('upstream-labels', None)`, gerrit.py line 1489). -/
structure ProjectCfg where
  name : Option String
  upstream : Bool
  upstreamLabels : Option (List LabelCfg)
deriving DecidableEq, Repr

/-- The configuration dictionary, restricted to the keys the propagation
workflow reads: `projects` (`.get('projects', [])`), the global
`upstream-labels` (`.get('upstream-labels', [])`, with an absent key
modelled as the empty list), `upstream.trigger`, and the `git-config`
service identity `name`/`email`. -/
structure Conf where
  projects : List ProjectCfg
  upstreamLabels : List LabelCfg
  trigger : String
  gitConfigName : String
  gitConfigEmail : String
deriving DecidableEq, Repr

/-- A gerrit remote (gerrit.py `Remote`), restricted to the fields
`send_upstream` uses. -/
structure Remote where
  host : String
  port : String
  username : String
deriving DecidableEq, Repr

/-- Python dict assignment `d[k] = v` on an association list with unique
keys: replaces the value at an existing key in place, otherwise appends. -/
def dictUpdate (k : String) (v : Label) : List (String × Label) → List (String × Label)
  | [] => [(k, v)]
  | (k', v') :: rest => if k' = k then (k, v) :: rest else (k', v') :: dictUpdate k v rest

/-- Python `d.get(k)` on an association list. -/
def dictGet (k : String) : List (String × Label) → Option Label
  | [] => none
  | (k', v) :: rest => if k' = k then some v else dictGet k rest

/-- In-place mutation of the value stored at key `k` (no-op when the key
is absent), modelling mutation of the shared `Label` object held by the
dict. -/
def dictModify (k : String) (f : Label → Label) : List (String × Label) → List (String × Label)
  | [] => []
  | (k', v) :: rest => if k' = k then (k', f v) :: rest else (k', v) :: dictModify k f rest

/-- get_labels_for_upstream (gerrit.py lines 1474-1503): take the first
configured project whose `name` equals `project_name` and use its
`upstream-labels` when that key is present; otherwise fall back to the
global `upstream-labels`; then build a dict of fresh `Label` objects
keyed by label name (later duplicates replacing earlier ones). -/
def get_labels_for_upstream (conf : Conf) (projectName : String) : List (String × Label) :=
  let labelDicts :=
    match conf.projects.find? (fun p => p.name == some projectName) with
    | some p =>
      match p.upstreamLabels with
      | some ls => ls
      | none => conf.upstreamLabels
    | none => conf.upstreamLabels
  labelDicts.foldl (fun d l => dictUpdate l.name ⟨l.name, l.min, l.max, []⟩ d) []

/-- One iteration of the routing loop in is_upstream_approved
(gerrit.py lines 493-496): `labels.get(approval.name)` and, when a label
is found, `label.add_approval(approval)`. An approval whose `type` is
`None` or names no configured label leaves the dict unchanged. -/
def routeApproval (d : List (String × Label)) (a : Approval) : List (String × Label) :=
  match a.name with
  | none => d
  | some n => dictModify n (fun l => l.add_approval a) d

/-- The label dict after routing every fetched approval
(gerrit.py lines 491-496). -/
def finalLabels (conf : Conf) (projectName : String) (approvals : List Approval) :
    List (String × Label) :=
  approvals.foldl routeApproval (get_labels_for_upstream conf projectName)

/-- CommentAdded.is_upstream_approved (gerrit.py lines 482-507): build
the label dict for the project, route the fetched approvals into it,
and return `all(l.approved() for l in labels.values())`. -/
def is_upstream_approved (conf : Conf) (projectName : String) (approvals : List Approval) :
    Bool :=
  (finalLabels conf projectName approvals).all (fun kv => kv.2.approved)

/-- Shape of one raw patchset object inside the output of the approval
query, as consumed by get_approvals: the `number` field may be absent
(`KeyError`), present but not convertible by `int(...)` (`ValueError`),
or an integer; the `approvals` field may be absent (`KeyError`) or a
list of approvals. -/
inductive NumField
  | missing
  | bad
  | val (n : Int)
deriving DecidableEq, Repr

/-- Raw patchset record from the gerrit query output. -/
structure RawPS where
  number : NumField
  approvals : Option (List Approval)
deriving DecidableEq, Repr

/-- Parse outcome of the query output consumed by get_approvals before
the patchset loop: `MultiJSON(out)[0]` can raise, the `patchSets` key
can be absent, or a list of raw patchsets is available. -/
inductive QueryParse
  | parseFail
  | noPatchSetsKey
  | withPatchSets (ps : List RawPS)
deriving DecidableEq, Repr

/-- The patchset loop of get_approvals (gerrit.py lines 531-535) in the
scope of the enclosing bare `except`: walks the patchsets, appending the
approvals of every patchset whose number equals the event's patchset id;
the first raised exception (absent or malformed `number`, absent
`approvals` key) stops the walk, and the approvals accumulated so far
are what the function returns.  Returns the accumulated list and whether
an exception occurred. -/
def collectApprovals (pid : Int) : List RawPS → List Approval → List Approval × Bool
  | [], acc => (acc, false)
  | p :: rest, acc =>
    match p.number with
    | .missing => (acc, true)
    | .bad => (acc, true)
    | .val n =>
      if n = pid then
        match p.approvals with
        | none => (acc, true)
        | some as => collectApprovals pid rest (acc ++ as)
      else collectApprovals pid rest acc

/-- CommentAdded.get_approvals (gerrit.py lines 509-546), with the ssh
query outcome supplied as inputs: a non-zero exit status raises inside
the `try` (leaving the accumulator empty), any parse failure likewise,
and the bare `except` swallows the exception so that the accumulated
approvals (possibly none) are returned. -/
def get_approvals (retcode : Nat) (q : QueryParse) (pid : Int) : List Approval :=
  if retcode ≠ 0 then []
  else
    match q with
    | .parseFail => []
    | .noPatchSetsKey => []
    | .withPatchSets ps => (collectApprovals pid ps []).1

/-- Whether the approval fetch failed: non-zero exit status of the query
command, or an exception raised while parsing its output. -/
def fetchFailed (retcode : Nat) (q : QueryParse) (pid : Int) : Bool :=
  if retcode ≠ 0 then true
  else
    match q with
    | .parseFail => true
    | .noPatchSetsKey => true
    | .withPatchSets ps => (collectApprovals pid ps []).2

/-- The classifier's view of a comment-added event whose structurally
required fields are present (the raw accessors, exceptions included, are
modelled separately on `RawEventData`).  `comment` is the raw optional
field (`.get('comment', '')` is applied at use sites); the owner fields
are optional. -/
structure Event where
  changeId : Option String
  project : String
  branch : String
  topic : String
  patchsetNumber : Int
  revision : String
  comment : Option String
  ownerUsername : Option String
  ownerName : Option String
  ownerEmail : Option String
deriving DecidableEq, Repr

/-- CommentAdded.comment (gerrit.py lines 335-343):
`self._data.get('comment', '')`. -/
def pyComment (ev : Event) : String := ev.comment.getD ""

/-- Outcome of one `subprocess.check_output` invocation of git-review:
success with captured output, `CalledProcessError` with captured output,
or any other exception. -/
inductive CmdResult
  | success (out : String)
  | calledError (out : String)
  | otherExc
deriving DecidableEq, Repr

/-- Oracle inputs for one run of send_upstream: the outcomes of the
external commands it issues, in program order. -/
structure Ext where
  fetchRetcode : Nat
  fetchParse : QueryParse
  mkdirOk : Bool
  gitInitOk : Bool
  addRemoteDownstreamOk : Bool
  addRemoteUpstreamOk : Bool
  setEmailOk : Bool
  setNameOk : Bool
  download : CmdResult
  push : CmdResult
  upstreamUrl : String
deriving DecidableEq, Repr

/-- Externally visible actions of send_upstream, in order: the ssh
approval query, review comments posted on the downstream change, git
invocations in the scratch repository, the two git-review invocations,
and the upstream url query. -/
inductive Effect
  | queryApprovals (changeId : Option String) (branch : String) (project : String)
  | postComment (msg : String) (revision : String)
  | gitInit
  | gitAddRemote (name : String) (username : String) (host : String) (port : String)
      (project : String)
  | gitSetConfig (key : String) (value : String)
  | runDownload (changeId : Option String) (patchset : Int)
  | runPush (branch : String) (topic : String)
  | queryUpstreamUrl
deriving DecidableEq, Repr

/-- The identity resolved for the upstream push (gerrit.py lines
648-661): a username plus optional name and email. -/
structure Identity where
  username : String
  name : Option String
  email : Option String
deriving DecidableEq, Repr

/-- Result of one modelled run of send_upstream: the effect trace, the
identity resolved for the upstream push (when resolution was reached),
whether the try/finally transfer block was entered, whether the prior
working directory was restored and the scratch directory removed, and
whether the call returned normally or propagated a Python exception. -/
structure SendResult where
  effects : List Effect
  identity : Option Identity
  enteredTransfer : Bool
  cwdRestored : Bool
  scratchRemoved : Bool
  outcome : Except PyExc Unit
deriving DecidableEq, Repr

/-- CommentAdded.is_upstream_project (gerrit.py lines 435-466): the
first configured project whose name equals the event's project, found
and carrying the `upstream` designation. -/
def isUpstreamProject (conf : Conf) (ev : Event) : Bool :=
  match conf.projects.find? (fun p => p.name == some ev.project) with
  | none => false
  | some p => p.upstream

/-- CommentAdded.is_upstream_indicated (gerrit.py lines 468-480): the
configured trigger is looked for, as a substring, in the first line of
the comment.  `self.comment.splitlines()[0]` raises `IndexError` when
the comment splits into no lines, which happens exactly for the empty
comment. -/
def isUpstreamIndicated (conf : Conf) (ev : Event) : Except PyExc Bool :=
  match splitlines (pyComment ev) with
  | [] => .error .indexError
  | l :: _ => .ok (containsSub conf.trigger.data l.data)

/-- Identity resolution of send_upstream (gerrit.py lines 648-661):
use the change owner's username/name/email, but when the owner username
is falsy (absent or the empty string), fall back to the configured
upstream username and the `git-config` name and email. -/
def resolveIdentity (conf : Conf) (upstream : Remote) (ev : Event) : Identity :=
  match ev.ownerUsername with
  | some u =>
    if u = "" then ⟨upstream.username, some conf.gitConfigName, some conf.gitConfigEmail⟩
    else ⟨u, ev.ownerName, ev.ownerEmail⟩
  | none => ⟨upstream.username, some conf.gitConfigName, some conf.gitConfigEmail⟩

/-- The `except subprocess.CalledProcessError` handler (gerrit.py lines
705-711): post the failure comment carrying `e.output` (`None` for a
`check_call` failure, the captured output for a `check_output` failure),
then log; the second log line reads the local `out`, which is unbound
unless the download step had completed, so when `outBound` is false the
handler itself raises `NameError`. -/
def handlerCalled (ev : Event) (output : Option String) (outBound : Bool) :
    List Effect × Except PyExc Unit :=
  ([.postComment ("Could not send to upstream:\n" ++ pyShow output) ev.revision],
   if outBound then .ok () else .error .nameError)

/-- The `except Exception` handler (gerrit.py lines 713-718): post the
fixed failure comment and return normally. -/
def handlerOther (ev : Event) : List Effect × Except PyExc Unit :=
  ([.postComment "Could not send to upstream: Error running git-review" ev.revision],
   .ok ())

/-- The inner `try` of send_upstream (gerrit.py lines 670-718): set the
committer email and name, download the change with git-review, push it
upstream with git-review, then post the success comment with the
upstream url.  A `git config` call with a `None` value raises
`TypeError` inside `subprocess` before any command runs, landing in the
`except Exception` handler; a failing `git config` raises
`CalledProcessError` carrying `None` as output; the git-review outcomes
come from the oracles. -/
def innerTransfer (ev : Event) (ident : Identity) (ext : Ext) :
    List Effect × Except PyExc Unit :=
  match ident.email with
  | none => handlerOther ev
  | some em =>
    let e1 : Effect := .gitSetConfig "user.email" em
    if ¬ ext.setEmailOk then
      let (fx, oc) := handlerCalled ev none false
      (e1 :: fx, oc)
    else
      match ident.name with
      | none => ([e1] ++ (handlerOther ev).1, (handlerOther ev).2)
      | some nm =>
        let e2 : Effect := .gitSetConfig "user.name" nm
        if ¬ ext.setNameOk then
          let (fx, oc) := handlerCalled ev none false
          ([e1, e2] ++ fx, oc)
        else
          let e3 : Effect := .runDownload ev.changeId ev.patchsetNumber
          match ext.download with
          | .calledError o =>
            let (fx, oc) := handlerCalled ev (some o) false
            ([e1, e2, e3] ++ fx, oc)
          | .otherExc =>
            ([e1, e2, e3] ++ (handlerOther ev).1, (handlerOther ev).2)
          | .success _ =>
            let e4 : Effect := .runPush ev.branch ev.topic
            match ext.push with
            | .calledError o =>
              let (fx, oc) := handlerCalled ev (some o) true
              ([e1, e2, e3, e4] ++ fx, oc)
            | .otherExc =>
              ([e1, e2, e3, e4] ++ (handlerOther ev).1, (handlerOther ev).2)
            | .success _ =>
              ([e1, e2, e3, e4, .queryUpstreamUrl,
                .postComment ("Sent to upstream: " ++ ext.upstreamUrl) ev.revision],
               .ok ())

/-- CommentAdded.send_upstream (gerrit.py lines 582-725) as a trace of
effects.  In order: the project gate returns silently; the trigger gate
returns silently on a negative answer and propagates the `IndexError` of
an empty comment; the approvals are fetched (one ssh query effect) and
the evaluation gate posts the fixed not-approved comment and returns;
`os.makedirs` failure propagates `OSError` before the try/finally is
entered; inside the try/finally, `git init` and the two `git remote add`
calls raise `CalledProcessError` out of the block on failure, the
identity is resolved between the two, and the inner `try` runs
`innerTransfer`; the `finally` always restores the working directory and
removes the scratch directory. -/
def sendUpstream (conf : Conf) (downstream upstream : Remote) (ev : Event) (ext : Ext) :
    SendResult :=
  if ¬ isUpstreamProject conf ev then
    ⟨[], none, false, false, false, .ok ()⟩
  else
    match isUpstreamIndicated conf ev with
    | .error e => ⟨[], none, false, false, false, .error e⟩
    | .ok false => ⟨[], none, false, false, false, .ok ()⟩
    | .ok true =>
      let qEff : Effect := .queryApprovals ev.changeId ev.branch ev.project
      let approvals := get_approvals ext.fetchRetcode ext.fetchParse ev.patchsetNumber
      if ¬ is_upstream_approved conf ev.project approvals then
        ⟨[qEff, .postComment "Could not send to upstream: One or more labels not approved."
            ev.revision],
         none, false, false, false, .ok ()⟩
      else if ¬ ext.mkdirOk then
        ⟨[qEff], none, false, false, false, .error .osError⟩
      else if ¬ ext.gitInitOk then
        ⟨[qEff, .gitInit], none, true, true, true, .error .calledProcessError⟩
      else
        let eDown : Effect := .gitAddRemote "downstream" downstream.username downstream.host
          downstream.port ev.project
        if ¬ ext.addRemoteDownstreamOk then
          ⟨[qEff, .gitInit, eDown], none, true, true, true, .error .calledProcessError⟩
        else
          let ident := resolveIdentity conf upstream ev
          let eUp : Effect := .gitAddRemote "upstream" ident.username upstream.host
            upstream.port ev.project
          if ¬ ext.addRemoteUpstreamOk then
            ⟨[qEff, .gitInit, eDown, eUp], some ident, true, true, true,
             .error .calledProcessError⟩
          else
            let inner := innerTransfer ev ident ext
            ⟨[qEff, .gitInit, eDown, eUp] ++ inner.1, some ident, true, true, true, inner.2⟩

/-- Whether an effect posts a review comment on the downstream change. -/
def Effect.isComment : Effect → Bool
  | .postComment _ _ => true
  | _ => false

/-- Whether an effect is the git-review upstream push invocation. -/
def Effect.isPush : Effect → Bool
  | .runPush _ _ => true
  | _ => false

/-- Whether an effect is the git-review download invocation. -/
def Effect.isDownload : Effect → Bool
  | .runDownload _ _ => true
  | _ => false

/-- Raw change-owner record: the three optional fields read with
`.get`. -/
structure RawOwner where
  username : Option String
  name : Option String
  email : Option String
deriving DecidableEq, Repr

/-- Raw `change` record of a comment-added event, each key possibly
absent. -/
structure RawChangeData where
  id : Option String
  project : Option String
  branch : Option String
  topic : Option String
  owner : Option RawOwner
deriving DecidableEq, Repr

/-- Raw `patchSet` record of a comment-added event: the `number` field
(already `int(...)`-parsed when present) and the `revision` field, each
possibly absent. -/
structure RawPatchSetData where
  number : Option Int
  revision : Option String
deriving DecidableEq, Repr

/-- Raw comment-added event record, each top-level key possibly
absent. -/
structure RawEventData where
  change : Option RawChangeData
  patchSet : Option RawPatchSetData
  comment : Option String
deriving DecidableEq, Repr

/-- Python `d[k]`: the value when the key is present, `KeyError`
otherwise. -/
def pySubscript {α : Type} (d : Option α) : Except PyExc α :=
  match d with
  | none => .error .keyError
  | some v => .ok v

/-- CommentAdded.change_id (gerrit.py lines 345-353):
`self._data['change'].get('id')` — subscripting raises when the `change`
object is absent, but an absent `id` key yields `None`, not an error. -/
def changeIdAcc (d : RawEventData) : Except PyExc (Option String) :=
  match d.change with
  | none => .error .keyError
  | some c => .ok c.id

/-- CommentAdded.project (gerrit.py lines 365-373):
`self._data['change']['project']`. -/
def projectAcc (d : RawEventData) : Except PyExc String :=
  match d.change with
  | none => .error .keyError
  | some c => pySubscript c.project

/-- CommentAdded.branch (gerrit.py lines 375-383):
`self._data['change']['branch']`. -/
def branchAcc (d : RawEventData) : Except PyExc String :=
  match d.change with
  | none => .error .keyError
  | some c => pySubscript c.branch

/-- CommentAdded.patchset_id (gerrit.py lines 355-363):
`int(self._data['patchSet'].get('number'))` — subscripting raises
`KeyError` when `patchSet` is absent, and `int(None)` raises `TypeError`
when the `number` key is absent. -/
def patchsetIdAcc (d : RawEventData) : Except PyExc Int :=
  match d.patchSet with
  | none => .error .keyError
  | some p =>
    match p.number with
    | none => .error .typeError
    | some n => .ok n

/-- CommentAdded.revision (gerrit.py lines 395-403):
`self._data['patchSet']['revision']`. -/
def revisionAcc (d : RawEventData) : Except PyExc String :=
  match d.patchSet with
  | none => .error .keyError
  | some p => pySubscript p.revision

/-- CommentAdded.change_owner_username (gerrit.py lines 405-413):
`self._data['change']['owner'].get('username')`. -/
def ownerUsernameAcc (d : RawEventData) : Except PyExc (Option String) :=
  match d.change with
  | none => .error .keyError
  | some c =>
    match c.owner with
    | none => .error .keyError
    | some o => .ok o.username

/-- CommentAdded.change_owner_name (gerrit.py lines 415-423):
`self._data['change']['owner'].get('name')`. -/
def ownerNameAcc (d : RawEventData) : Except PyExc (Option String) :=
  match d.change with
  | none => .error .keyError
  | some c =>
    match c.owner with
    | none => .error .keyError
    | some o => .ok o.name

/-- CommentAdded.change_owner_email (gerrit.py lines 425-433):
`self._data['change']['owner'].get('email')`. -/
def ownerEmailAcc (d : RawEventData) : Except PyExc (Option String) :=
  match d.change with
  | none => .error .keyError
  | some c =>
    match c.owner with
    | none => .error .keyError
    | some o => .ok o.email

/-- CommentAdded.comment (gerrit.py lines 335-343) on the raw record:
`self._data.get('comment', '')`, never failing. -/
def commentAcc (d : RawEventData) : String := d.comment.getD ""

/-- Whether an approval names some label of the given label dict; used
to state that approvals matching no configured label are ignored. -/
def approvalMatches (d0 : List (String × Label)) (a : Approval) : Bool :=
  match a.name with
  | none => false
  | some n => (dictGet n d0).isSome

/-- Example configuration: one upstream project with one Code-Review
label bounded by -2 and 2. -/
def confEx : Conf :=
  ⟨[⟨some "proj", true, some [⟨"Code-Review", -2, 2⟩]⟩], [], "Upstream-Ready+1",
   "Svc Name", "svc@example.com"⟩

/-- Example configuration: one upstream project declaring an empty
`upstream-labels` list. -/
def confNoLabelsEx : Conf :=
  ⟨[⟨some "proj", true, some []⟩], [], "Upstream-Ready+1", "Svc Name", "svc@example.com"⟩

/-- Example downstream remote. -/
def downEx : Remote := ⟨"down.example.com", "29418", "downsvc"⟩

/-- Example upstream remote. -/
def upEx : Remote := ⟨"up.example.com", "29418", "upsvc"⟩

/-- Example comment-added event with the trigger on the first comment
line. -/
def evEx : Event :=
  ⟨some "I123", "proj", "master", "topic1", 1, "abc123",
   some "Upstream-Ready+1\nsecond line", some "alice", some "Alice A", some "alice@x.com"⟩

/-- Example oracle inputs on which every external command succeeds and
the fetched approvals carry a maximal Code-Review vote on patchset 1. -/
def extEx : Ext :=
  ⟨0, .withPatchSets [⟨.val 1, some [⟨some "Code-Review", 2⟩]⟩], true, true, true, true,
   true, true, .success "dl ok", .success "push ok", "https://up.example.com/42"⟩

lemma approved_of_values_nil (l : Label) (h : l.values = []) : l.approved = false := by
  simp [Label.approved, h]

lemma dictGet_dictModify_isSome (k m : String) (f : Label → Label)
    (d : List (String × Label)) :
    (dictGet k (dictModify m f d)).isSome = (dictGet k d).isSome := by
  induction d with
  | nil => rfl
  | cons kv rest ih =>
    obtain ⟨k', v⟩ := kv
    by_cases h1 : k' = m
    · subst h1
      by_cases h2 : k' = k
      · subst h2; simp [dictModify, dictGet]
      · simp [dictModify, dictGet, h2]
    · by_cases h2 : k' = k
      · subst h2; simp [dictModify, dictGet, h1]
      · simp [dictModify, dictGet, h1, h2, ih]

lemma dictModify_get_none (k : String) (f : Label → Label) (d : List (String × Label))
    (h : dictGet k d = none) : dictModify k f d = d := by
  induction d with
  | nil => rfl
  | cons kv rest ih =>
    obtain ⟨k', v⟩ := kv
    by_cases h1 : k' = k
    · simp [dictGet, h1] at h
    · simp only [dictGet, if_neg h1] at h
      simp [dictModify, h1, ih h]

lemma routeApproval_nil (a : Approval) : routeApproval [] a = [] := by
  cases h : a.name <;> simp [routeApproval, h, dictModify]

lemma foldl_routeApproval_nil (approvals : List Approval) :
    approvals.foldl routeApproval [] = [] := by
  induction approvals with
  | nil => rfl
  | cons a as ih => simp [List.foldl, routeApproval_nil, ih]

lemma routeApproval_keys (d : List (String × Label)) (a : Approval) (n : String) :
    (dictGet n (routeApproval d a)).isSome = (dictGet n d).isSome := by
  cases h : a.name <;> simp [routeApproval, h, dictGet_dictModify_isSome]

lemma foldl_route_filter (d0 : List (String × Label)) (approvals : List Approval) :
    ∀ d : List (String × Label),
      (∀ n, (dictGet n d).isSome = (dictGet n d0).isSome) →
      approvals.foldl routeApproval d =
        (approvals.filter (approvalMatches d0)).foldl routeApproval d := by
  induction approvals with
  | nil => intro d _; rfl
  | cons a as ih =>
    intro d hd
    cases hn : a.name with
    | none =>
      have hra : routeApproval d a = d := by simp [routeApproval, hn]
      have hpa : approvalMatches d0 a = false := by simp [approvalMatches, hn]
      simpa [List.foldl, List.filter, hpa, hra] using ih d hd
    | some n =>
      by_cases hin : (dictGet n d0).isSome
      · have hpa : approvalMatches d0 a = true := by simp [approvalMatches, hn, hin]
        have hinv : ∀ m, (dictGet m (routeApproval d a)).isSome = (dictGet m d0).isSome :=
          fun m => (routeApproval_keys d a m).trans (hd m)
        simpa [List.foldl, List.filter, hpa] using ih (routeApproval d a) hinv
      · have hnone : dictGet n d = none := by
          have := hd n
          rw [(Bool.eq_false_iff.mpr hin : (dictGet n d0).isSome = false)] at this
          exact Option.not_isSome_iff_eq_none.mp (by simp [this])
        have hra : routeApproval d a = d := by
          simp [routeApproval, hn, dictModify_get_none _ _ _ hnone]
        have hpa : approvalMatches d0 a = false := by simp [approvalMatches, hn, hin]
        simpa [List.foldl, List.filter, hpa, hra] using ih d hd

lemma mem_dictUpdate (k : String) (v : Label) (d : List (String × Label))
    (kv : String × Label) (h : kv ∈ dictUpdate k v d) : kv = (k, v) ∨ kv ∈ d := by
  induction d with
  | nil => simpa [dictUpdate] using h
  | cons kv' rest ih =>
    obtain ⟨k', v'⟩ := kv'
    by_cases h1 : k' = k
    · simp only [dictUpdate, if_pos h1] at h
      rcases List.mem_cons.mp h with h2 | h2
      · exact Or.inl h2
      · exact Or.inr (List.mem_cons.mpr (Or.inr h2))
    · simp only [dictUpdate, if_neg h1] at h
      rcases List.mem_cons.mp h with h2 | h2
      · exact Or.inr (List.mem_cons.mpr (Or.inl h2))
      · rcases ih h2 with h3 | h3
        · exact Or.inl h3
        · exact Or.inr (List.mem_cons.mpr (Or.inr h3))

lemma foldl_dictUpdate_values (ls : List LabelCfg) :
    ∀ d : List (String × Label), (∀ kv ∈ d, kv.2.values = ([] : List Int)) →
      ∀ kv ∈ ls.foldl (fun d l => dictUpdate l.name ⟨l.name, l.min, l.max, []⟩ d) d,
        kv.2.values = [] := by
  induction ls with
  | nil => intro d hd kv hkv; exact hd kv hkv
  | cons l rest ih =>
    intro d hd kv hkv
    refine ih _ ?_ kv hkv
    intro kv' hkv'
    rcases mem_dictUpdate _ _ _ _ hkv' with h | h
    · rw [h]
    · exact hd kv' h

lemma get_labels_values_nil (conf : Conf) (p : String) :
    ∀ kv ∈ get_labels_for_upstream conf p, kv.2.values = [] := by
  simp only [get_labels_for_upstream]
  exact foldl_dictUpdate_values _ [] (by simp)

/-- C1: for every label with min bound strictly below max bound,
`approved()` is false when no values were recorded; false whenever the
minimum recorded value is at most the min bound, no matter how large the
other values are (the block check precedes the max check); true when the
minimum recorded value exceeds the min bound and the maximum recorded
value reaches the max bound; and false otherwise. -/
theorem label_approved_characterization (l : Label) (_hb : l.min < l.max) :
    (l.values = [] → l.approved = false) ∧
    (∀ v vs, l.values = v :: vs → pyMin v vs ≤ l.min → l.approved = false) ∧
    (∀ v vs, l.values = v :: vs → l.min < pyMin v vs → l.max ≤ pyMax v vs →
      l.approved = true) ∧
    (∀ v vs, l.values = v :: vs → l.min < pyMin v vs → pyMax v vs < l.max →
      l.approved = false) := by
  refine ⟨fun h => approved_of_values_nil l h, ?_, ?_, ?_⟩
  · intro v vs hv h
    simp [Label.approved, hv, h]
  · intro v vs hv h1 h2
    simp [Label.approved, hv, not_le.mpr h1, h2]
  · intro v vs hv h1 h2
    simp [Label.approved, hv, not_le.mpr h1, not_le.mpr h2]

/-- Witness for C1 at the label Code-Review with bounds -2 and 2: votes
1 and 2 give an approved label. -/
theorem label_approved_characterization_witness :
    (⟨"Code-Review", -2, 2, [1, 2]⟩ : Label).approved = true :=
  (label_approved_characterization ⟨"Code-Review", -2, 2, [1, 2]⟩ (by decide)).2.2.1
    1 [2] rfl (by decide) (by decide)

/-- C2: is_upstream_approved is true exactly when every label of the
label dict configured for the event's project, after the fetched
approvals are routed into it, is approved (a conjunction over all
configured labels); a project whose configured label dict is empty
trivially passes; and approvals whose name matches no configured label
(or whose name is absent) are ignored — filtering them out does not
change the outcome. -/
theorem is_upstream_approved_characterization (conf : Conf) (p : String)
    (approvals : List Approval) :
    (is_upstream_approved conf p approvals = true ↔
      ∀ kv ∈ finalLabels conf p approvals, kv.2.approved = true) ∧
    (get_labels_for_upstream conf p = [] → is_upstream_approved conf p approvals = true) ∧
    (is_upstream_approved conf p approvals =
      is_upstream_approved conf p
        (approvals.filter (approvalMatches (get_labels_for_upstream conf p)))) := by
  refine ⟨?_, ?_, ?_⟩
  · simp [is_upstream_approved, List.all_eq_true]
  · intro h
    simp [is_upstream_approved, finalLabels, h, foldl_routeApproval_nil]
  · have := foldl_route_filter (get_labels_for_upstream conf p) approvals
      (get_labels_for_upstream conf p) (fun _ => rfl)
    simp only [is_upstream_approved, finalLabels]
    rw [this]

/-- Witness for C2 at a project with an empty configured label list and
one fetched approval: the change is upstream-approved. -/
theorem is_upstream_approved_characterization_witness :
    is_upstream_approved confNoLabelsEx "proj" [⟨some "Code-Review", 2⟩] = true :=
  (is_upstream_approved_characterization confNoLabelsEx "proj"
    [⟨some "Code-Review", 2⟩]).2.1 (by decide)

/-- Counterexample to C3.  First, a parse failure hit after some
approvals were already accumulated makes get_approvals return those
approvals, not the empty list: with patchset 1 carrying a Code-Review 2
approval followed by a patchset record lacking its `number` key, the
fetch fails yet one approval is returned.  Second, with an empty fetched
approval list the evaluation gate is not deterministically not-approved:
a project configured with an empty `upstream-labels` list passes
(`all([])` is true), so a query failure (here a non-zero exit status)
still results in the change being pushed upstream — the trace of the
full workflow contains the upstream push. -/
theorem approval_fetch_failure_cex :
    (fetchFailed 0
        (.withPatchSets [⟨.val 1, some [⟨some "Code-Review", 2⟩]⟩, ⟨.missing, none⟩]) 1
        = true ∧
      get_approvals 0
        (.withPatchSets [⟨.val 1, some [⟨some "Code-Review", 2⟩]⟩, ⟨.missing, none⟩]) 1
        = [⟨some "Code-Review", 2⟩]) ∧
    is_upstream_approved confNoLabelsEx "proj" [] = true ∧
    ((sendUpstream confNoLabelsEx downEx upEx evEx
        { extEx with fetchRetcode := 1 }).effects.countP Effect.isPush = 1 ∧
      (1 : Nat) ≠ 0) := by
  refine ⟨⟨by decide, by decide⟩, by decide, by decide, by decide⟩

/-- C3 as amended: a failure of the approval fetch yields only the
approvals accumulated before the failure point — in particular the empty
list whenever the query command exits non-zero or the output fails to
parse before the patchset loop — and with an empty approval list the
evaluation gate is not-approved whenever at least one label is
configured for the project, so for such projects a query failure cannot
send the change upstream. -/
theorem approval_fetch_failure_amended :
    (∀ (retcode : Nat) (q : QueryParse) (pid : Int), retcode ≠ 0 →
      get_approvals retcode q pid = []) ∧
    (∀ pid : Int, get_approvals 0 .parseFail pid = [] ∧
      get_approvals 0 .noPatchSetsKey pid = []) ∧
    (∀ (conf : Conf) (p : String), get_labels_for_upstream conf p ≠ [] →
      is_upstream_approved conf p [] = false) := by
  refine ⟨?_, ?_, ?_⟩
  · intro retcode q pid h
    simp [get_approvals, h]
  · intro pid
    exact ⟨rfl, rfl⟩
  · intro conf p h
    cases hl : get_labels_for_upstream conf p with
    | nil => exact absurd hl h
    | cons kv rest =>
      have hv : kv.2.values = [] :=
        get_labels_values_nil conf p kv (by rw [hl]; exact List.mem_cons_self _ _)
      rw [is_upstream_approved, show finalLabels conf p [] = get_labels_for_upstream conf p
        from rfl, hl]
      simp [approved_of_values_nil kv.2 hv]

/-- Witness for the amended C3: a non-zero exit yields no approvals, and
with the one-label example configuration an empty approval list is not
approved. -/
theorem approval_fetch_failure_amended_witness :
    get_approvals 1 .parseFail 0 = [] ∧ is_upstream_approved confEx "proj" [] = false :=
  ⟨approval_fetch_failure_amended.1 1 .parseFail 0 (by decide),
   approval_fetch_failure_amended.2.2 confEx "proj" (by decide)⟩

/-- C4: whenever the first line of the comment does not contain the
configured trigger token as a substring, the trigger gate fails and
send_upstream stops with no effect at all — no comment is posted —
regardless of the later lines; and whenever the first line does contain
the token, the trigger gate passes. -/
theorem trigger_gate_first_line (conf : Conf) (ds us : Remote) (ev : Event) (ext : Ext)
    (first : String) (rest : List String) :
    (isUpstreamProject conf ev = true →
      splitlines (pyComment ev) = first :: rest →
      containsSub conf.trigger.data first.data = false →
      (sendUpstream conf ds us ev ext).effects = [] ∧
      (sendUpstream conf ds us ev ext).outcome = .ok ()) ∧
    (splitlines (pyComment ev) = first :: rest →
      containsSub conf.trigger.data first.data = true →
      isUpstreamIndicated conf ev = .ok true) := by
  constructor
  · intro h1 h2 h3
    have hi : isUpstreamIndicated conf ev = .ok false := by
      simp [isUpstreamIndicated, h2, h3]
    simp [sendUpstream, h1, hi]
  · intro h2 h3
    simp [isUpstreamIndicated, h2, h3]

/-- Witness for C4: a comment whose trigger appears only on the second
line produces no effects, and a comment with the trigger on the first
line passes the trigger gate. -/
theorem trigger_gate_first_line_witness :
    (sendUpstream confEx downEx upEx
      { evEx with comment := some "nothing here\nUpstream-Ready+1" } extEx).effects = [] ∧
    isUpstreamIndicated confEx evEx = .ok true :=
  ⟨((trigger_gate_first_line confEx downEx upEx
      { evEx with comment := some "nothing here\nUpstream-Ready+1" } extEx
      "nothing here" ["Upstream-Ready+1"]).1 (by decide) (by decide) (by decide)).1,
   (trigger_gate_first_line confEx downEx upEx evEx extEx
      "Upstream-Ready+1" ["second line"]).2 (by decide) (by decide)⟩

/-- C6: when the event's project is not found in configuration or is
not marked upstream, send_upstream performs no effect at all — no
network call, no comment — and returns normally. -/
theorem project_gate_silent (conf : Conf) (ds us : Remote) (ev : Event) (ext : Ext)
    (h : isUpstreamProject conf ev = false) :
    sendUpstream conf ds us ev ext = ⟨[], none, false, false, false, .ok ()⟩ := by
  simp [sendUpstream, h]

/-- Witness for C6 at a project absent from the configuration. -/
theorem project_gate_silent_witness :
    sendUpstream confEx downEx upEx { evEx with project := "other" } extEx =
      ⟨[], none, false, false, false, .ok ()⟩ :=
  project_gate_silent confEx downEx upEx { evEx with project := "other" } extEx (by decide)

/-- C9: whenever the transfer try/finally block is entered, the prior
working directory is restored and the scratch directory is removed, on
every path — normal completion and every modelled exception alike. -/
theorem cleanup_guaranteed (conf : Conf) (ds us : Remote) (ev : Event) (ext : Ext)
    (h : (sendUpstream conf ds us ev ext).enteredTransfer = true) :
    (sendUpstream conf ds us ev ext).cwdRestored = true ∧
    (sendUpstream conf ds us ev ext).scratchRemoved = true := by
  revert h
  simp only [sendUpstream]
  repeat' split
  all_goals simp

/-- Witness for C9 on a run that enters the transfer block and fails at
`git init`: the working directory is restored and the scratch directory
removed. -/
theorem cleanup_guaranteed_witness :
    (sendUpstream confEx downEx upEx evEx { extEx with gitInitOk := false }).cwdRestored
      = true ∧
    (sendUpstream confEx downEx upEx evEx
      { extEx with gitInitOk := false }).scratchRemoved = true :=
  cleanup_guaranteed confEx downEx upEx evEx { extEx with gitInitOk := false } (by decide)

/-- C10: on an upstream-eligible project, a comment that is the empty
string — also when the raw record has no comment field, since the
accessor defaults to the empty string — makes the trigger gate raise
`IndexError` (splitting the empty string yields no lines) and
send_upstream propagates the exception with no effect performed, rather
than stopping silently. -/
theorem empty_comment_raises (conf : Conf) (ds us : Remote) (ev : Event) (ext : Ext)
    (hc : ev.comment = none ∨ ev.comment = some "")
    (hp : isUpstreamProject conf ev = true) :
    (sendUpstream conf ds us ev ext).outcome = .error .indexError ∧
    (sendUpstream conf ds us ev ext).effects = [] := by
  have hc' : pyComment ev = "" := by rcases hc with h | h <;> simp [pyComment, h]
  have hs : splitlines (pyComment ev) = [] := by rw [hc']; rfl
  have hi : isUpstreamIndicated conf ev = .error .indexError := by
    simp [isUpstreamIndicated, hs]
  simp [sendUpstream, hp, hi]

/-- Witness for C10 at the example event with its comment field
removed. -/
theorem empty_comment_raises_witness :
    (sendUpstream confEx downEx upEx { evEx with comment := none } extEx).outcome =
      .error .indexError :=
  (empty_comment_raises confEx downEx upEx { evEx with comment := none } extEx
    (Or.inl rfl) (by decide)).1

/-- C7: when every gate passes and the git-review download command exits
non-zero with captured output `o`, the downstream change receives
exactly one review comment, equal to the fixed failure message carrying
that output; no upstream push is attempted; the download is attempted
exactly once (no retry); and the scratch directory is removed and the
working directory restored.  The attempt then terminates — the
`CalledProcessError` handler reads the never-assigned local `out` after
posting the comment, so the run ends by propagating a `NameError`. -/
theorem download_failure_reports_and_stops (conf : Conf) (ds us : Remote) (ev : Event)
    (ext : Ext) (em nm o : String)
    (h1 : isUpstreamProject conf ev = true)
    (h2 : isUpstreamIndicated conf ev = .ok true)
    (h3 : is_upstream_approved conf ev.project
      (get_approvals ext.fetchRetcode ext.fetchParse ev.patchsetNumber) = true)
    (h4 : ext.mkdirOk = true) (h5 : ext.gitInitOk = true)
    (h6 : ext.addRemoteDownstreamOk = true) (h7 : ext.addRemoteUpstreamOk = true)
    (h8 : ext.setEmailOk = true) (h9 : ext.setNameOk = true)
    (hem : (resolveIdentity conf us ev).email = some em)
    (hnm : (resolveIdentity conf us ev).name = some nm)
    (hd : ext.download = .calledError o) :
    ((sendUpstream conf ds us ev ext).effects.filter Effect.isComment =
      [.postComment ("Could not send to upstream:\n" ++ o) ev.revision]) ∧
    ((sendUpstream conf ds us ev ext).effects.countP Effect.isPush = 0) ∧
    ((sendUpstream conf ds us ev ext).effects.countP Effect.isDownload = 1) ∧
    (sendUpstream conf ds us ev ext).scratchRemoved = true ∧
    (sendUpstream conf ds us ev ext).cwdRestored = true ∧
    (sendUpstream conf ds us ev ext).outcome = .error .nameError := by
  have hinner : innerTransfer ev (resolveIdentity conf us ev) ext =
      ([.gitSetConfig "user.email" em, .gitSetConfig "user.name" nm,
        .runDownload ev.changeId ev.patchsetNumber,
        .postComment ("Could not send to upstream:\n" ++ o) ev.revision],
       .error .nameError) := by
    simp [innerTransfer, hem, hnm, h8, h9, hd, handlerCalled, pyShow]
  refine ⟨?_, ?_, ?_, ?_, ?_, ?_⟩ <;>
    simp [sendUpstream, h1, h2, h3, h4, h5, h6, h7, hinner,
      Effect.isComment, Effect.isPush, Effect.isDownload]

/-- Witness for C7 at the example inputs with the download command
failing with output given by the fatal message. -/
theorem download_failure_reports_and_stops_witness :
    (sendUpstream confEx downEx upEx evEx
      { extEx with download := .calledError "fatal: change not found" }).effects.filter
        Effect.isComment =
      [.postComment "Could not send to upstream:\nfatal: change not found" "abc123"] ∧
    (sendUpstream confEx downEx upEx evEx
      { extEx with download := .calledError "fatal: change not found" }).effects.countP
        Effect.isPush = 0 :=
  have h := download_failure_reports_and_stops confEx downEx upEx evEx
    { extEx with download := .calledError "fatal: change not found" }
    "alice@x.com" "Alice A" "fatal: change not found"
    (by decide) (by decide) (by decide) (by decide) (by decide) (by decide) (by decide)
    (by decide) (by decide) (by decide) (by decide) (by decide)
  ⟨h.1, h.2.1⟩

/-- C8: when the change owner's username is absent, the identity
resolved for the propagation is the configured service identity in all
three components — the upstream remote is registered under the
configured upstream username and the local commit identity is set to the
configured `git-config` name and email, regardless of any owner name or
email carried by the event. -/
theorem absent_owner_username_service_identity (conf : Conf) (ds us : Remote) (ev : Event)
    (ext : Ext)
    (h0 : ev.ownerUsername = none)
    (h1 : isUpstreamProject conf ev = true)
    (h2 : isUpstreamIndicated conf ev = .ok true)
    (h3 : is_upstream_approved conf ev.project
      (get_approvals ext.fetchRetcode ext.fetchParse ev.patchsetNumber) = true)
    (h4 : ext.mkdirOk = true) (h5 : ext.gitInitOk = true)
    (h6 : ext.addRemoteDownstreamOk = true) (h7 : ext.addRemoteUpstreamOk = true)
    (h8 : ext.setEmailOk = true) (h9 : ext.setNameOk = true) :
    (sendUpstream conf ds us ev ext).identity =
      some ⟨us.username, some conf.gitConfigName, some conf.gitConfigEmail⟩ ∧
    Effect.gitAddRemote "upstream" us.username us.host us.port ev.project ∈
      (sendUpstream conf ds us ev ext).effects ∧
    Effect.gitSetConfig "user.email" conf.gitConfigEmail ∈
      (sendUpstream conf ds us ev ext).effects ∧
    Effect.gitSetConfig "user.name" conf.gitConfigName ∈
      (sendUpstream conf ds us ev ext).effects := by
  have hid : resolveIdentity conf us ev =
      ⟨us.username, some conf.gitConfigName, some conf.gitConfigEmail⟩ := by
    simp [resolveIdentity, h0]
  have hmem : Effect.gitSetConfig "user.email" conf.gitConfigEmail ∈
      (innerTransfer ev
        ⟨us.username, some conf.gitConfigName, some conf.gitConfigEmail⟩ ext).1 ∧
      Effect.gitSetConfig "user.name" conf.gitConfigName ∈
      (innerTransfer ev
        ⟨us.username, some conf.gitConfigName, some conf.gitConfigEmail⟩ ext).1 := by
    cases hdl : ext.download <;> cases hp : ext.push <;>
      simp [innerTransfer, h8, h9, hdl, hp, handlerCalled, handlerOther]
  refine ⟨?_, ?_, ?_, ?_⟩
  · simp [sendUpstream, h1, h2, h3, h4, h5, h6, h7, hid]
  · simp [sendUpstream, h1, h2, h3, h4, h5, h6, h7, hid]
  · simp only [sendUpstream, h1, h2, h3, h4, h5, h6, h7, hid]
    simp [hmem.1]
  · simp only [sendUpstream, h1, h2, h3, h4, h5, h6, h7, hid]
    simp [hmem.2]

/-- Witness for C8 at the example event with its owner username removed:
the resolved identity is the service identity. -/
theorem absent_owner_username_service_identity_witness :
    (sendUpstream confEx downEx upEx { evEx with ownerUsername := none } extEx).identity =
      some ⟨"upsvc", some "Svc Name", some "svc@example.com"⟩ :=
  (absent_owner_username_service_identity confEx downEx upEx
    { evEx with ownerUsername := none } extEx
    rfl (by decide) (by decide) (by decide) (by decide) (by decide) (by decide) (by decide)
    (by decide) (by decide)).1

/-- Counterexample to C5.  First, the change-id accessor reads the `id`
key with `.get`: on a record whose `change` object is present but lacks
the `id` key, it returns the absence marker `None` instead of failing
with a malformed-event error.  Second, the owner accessors are not
universally non-failing: on a record whose `change` object lacks the
`owner` key, the owner-username accessor raises `KeyError` instead of
returning the absence marker. -/
theorem classifier_required_fields_cex :
    changeIdAcc ⟨some ⟨none, some "proj", some "master", some "t",
        some ⟨some "u", none, none⟩⟩, some ⟨some 1, some "abc"⟩, none⟩ = Except.ok none ∧
    changeIdAcc ⟨some ⟨none, some "proj", some "master", some "t",
        some ⟨some "u", none, none⟩⟩, some ⟨some 1, some "abc"⟩, none⟩ ≠
      Except.error PyExc.keyError ∧
    ownerUsernameAcc ⟨some ⟨some "I1", some "proj", some "master", some "t", none⟩,
        some ⟨some 1, some "abc"⟩, none⟩ = Except.error PyExc.keyError :=
  ⟨rfl, by decide, rfl⟩

/-- C5 as amended: the accessors for project, branch, patchset number
and revision fail with a malformed-event error (`KeyError`, or
`TypeError` for a missing patchset number) when the field or its
enclosing object is absent; the change-id accessor fails only when the
`change` object itself is absent and otherwise returns the optional `id`
value, `None` included; and the owner accessors return the absence
marker for a missing username/name/email key but fail when the `change`
or `owner` object is absent. -/
theorem classifier_accessors_amended (d : RawEventData) :
    (d.change = none → changeIdAcc d = .error .keyError ∧
      projectAcc d = .error .keyError ∧ branchAcc d = .error .keyError ∧
      ownerUsernameAcc d = .error .keyError ∧ ownerNameAcc d = .error .keyError ∧
      ownerEmailAcc d = .error .keyError) ∧
    (∀ c, d.change = some c → changeIdAcc d = .ok c.id) ∧
    (∀ c, d.change = some c → c.project = none → projectAcc d = .error .keyError) ∧
    (∀ c v, d.change = some c → c.project = some v → projectAcc d = .ok v) ∧
    (∀ c, d.change = some c → c.branch = none → branchAcc d = .error .keyError) ∧
    (∀ c v, d.change = some c → c.branch = some v → branchAcc d = .ok v) ∧
    (d.patchSet = none → patchsetIdAcc d = .error .keyError ∧
      revisionAcc d = .error .keyError) ∧
    (∀ p, d.patchSet = some p → p.number = none → patchsetIdAcc d = .error .typeError) ∧
    (∀ p n, d.patchSet = some p → p.number = some n → patchsetIdAcc d = .ok n) ∧
    (∀ p, d.patchSet = some p → p.revision = none → revisionAcc d = .error .keyError) ∧
    (∀ p v, d.patchSet = some p → p.revision = some v → revisionAcc d = .ok v) ∧
    (∀ c, d.change = some c → c.owner = none →
      ownerUsernameAcc d = .error .keyError ∧ ownerNameAcc d = .error .keyError ∧
      ownerEmailAcc d = .error .keyError) ∧
    (∀ c o, d.change = some c → c.owner = some o →
      ownerUsernameAcc d = .ok o.username ∧ ownerNameAcc d = .ok o.name ∧
      ownerEmailAcc d = .ok o.email) := by
  refine ⟨?_, ?_, ?_, ?_, ?_, ?_, ?_, ?_, ?_, ?_, ?_, ?_, ?_⟩
  · intro h
    refine ⟨?_, ?_, ?_, ?_, ?_, ?_⟩ <;>
      simp [changeIdAcc, projectAcc, branchAcc, ownerUsernameAcc, ownerNameAcc,
        ownerEmailAcc, pySubscript, h]
  · intro c h
    simp [changeIdAcc, pySubscript, h]
  · intro c h hp
    simp [projectAcc, pySubscript, h, hp]
  · intro c v h hp
    simp [projectAcc, pySubscript, h, hp]
  · intro c h hb
    simp [branchAcc, pySubscript, h, hb]
  · intro c v h hb
    simp [branchAcc, pySubscript, h, hb]
  · intro h
    constructor <;> simp [patchsetIdAcc, revisionAcc, pySubscript, h]
  · intro p h hn
    simp [patchsetIdAcc, pySubscript, h, hn]
  · intro p n h hn
    simp [patchsetIdAcc, pySubscript, h, hn]
  · intro p h hr
    simp [revisionAcc, pySubscript, h, hr]
  · intro p v h hr
    simp [revisionAcc, pySubscript, h, hr]
  · intro c h ho
    refine ⟨?_, ?_, ?_⟩ <;>
      simp [ownerUsernameAcc, ownerNameAcc, ownerEmailAcc, pySubscript, h, ho]
  · intro c o h ho
    refine ⟨?_, ?_, ?_⟩ <;>
      simp [ownerUsernameAcc, ownerNameAcc, ownerEmailAcc, pySubscript, h, ho]

/-- Witness for the amended C5 on a fully populated record and on a
record lacking the `patchSet` key. -/
theorem classifier_accessors_amended_witness :
    projectAcc ⟨some ⟨some "I1", some "proj", some "master", some "t",
        some ⟨some "u", some "U N", some "u@x"⟩⟩, some ⟨some 1, some "abc"⟩, none⟩ =
      .ok "proj" ∧
    patchsetIdAcc ⟨some ⟨some "I1", some "proj", some "master", some "t",
        some ⟨some "u", some "U N", some "u@x"⟩⟩, none, none⟩ = .error .keyError :=
  ⟨(classifier_accessors_amended _).2.2.2.1 ⟨some "I1", some "proj", some "master",
      some "t", some ⟨some "u", some "U N", some "u@x"⟩⟩ "proj" rfl rfl,
   ((classifier_accessors_amended _).2.2.2.2.2.2.1 rfl).1⟩

end Gerrit
